import Mathlib

/-!
Verification development for the `pipe_updater` service (src/main.rs).

The program is an HTTP-triggered maintenance pipeline: stop configured
services, remove configured paths, download-and-unpack an archive through an
external download capability, change ownership of configured paths, restart
the services.  The pipeline body (`update_task_main`) runs on a background
thread; an `UpdateTask` holds the shared mutable fields (`stage`,
`is_running`, `error_message`); a process-wide registry (`AppState`) holds
the single current task; `/start` and `/progress` endpoints act on it.

The embedding below is a shallow one.  External effects (systemctl, the
filesystem, the download capability, spawning `chown` through bash) are an
explicit environment `Env` of oracles; the pipeline body is a pure function
of the environment returning the trace of effects it performed, the sequence
of values written to `stage`, and its `anyhow::Result`.  Machine state that
the Rust mutates through `Arc<Mutex<...>>` is threaded explicitly.
-/

/-- A minimal JSON value type, enough for the progress snapshots the
program builds with `serde_json::json!`. -/
inductive Json where
  | null : Json
  | str : String → Json
  | obj : List (String × Json) → Json

/-- Field lookup in a JSON object (`none` if not an object or absent). -/
def Json.getField : Json → String → Option Json
  | Json.obj fields, key => fields.lookup key
  | _, _ => none

/-- What `path.is_dir()` / `path.is_file()` report for a path. -/
inductive PathKind where
  | dir : PathKind
  | file : PathKind
  | absent : PathKind
  deriving Repr, DecidableEq

/-- The `std::process::Output` of a spawned command: exit status (as a
success flag) plus captured stdout/stderr.  The Rust code never reads any
of these fields. -/
structure CmdOutput where
  statusSuccess : Bool
  stdout : String
  stderr : String
  deriving Repr, DecidableEq

/-- The environment of external collaborators consumed by the pipeline:
`systemctl::stop` / `systemctl::restart`, the filesystem, the download
capability, and `std::process::Command` invocation of `/bin/bash -c`.
Each oracle returns what the corresponding call returns in the source. -/
structure Env where
  stop : String → Except String Unit
  restart : String → Except String Unit
  pathKind : String → PathKind
  removeDirAll : String → Except String Unit
  removeFile : String → Except String Unit
  start_download : Except String Unit
  download_error_message : Option String
  runCommand : String → Except String CmdOutput

/-- One observable effect performed by the pipeline body, in order. -/
inductive Effect where
  | stopService : String → Effect
  | removeDir : String → Effect
  | removeFile : String → Effect
  | sleepSettle : Effect
  | startDownload : Effect
  | pollUntilFinished : Effect
  | inspectDownloadError : Effect
  | chown : String → String → String → Effect
  | restartService : String → Effect
  deriving Repr, DecidableEq

/-- The `for service_to_stop in &services_to_stop { systemctl::stop(...) }`
loop: stops services in list order, aborting at the first failure with the
message built in the source. -/
def stopLoop (env : Env) : List String → List Effect × Except String Unit
  | [] => ([], Except.ok ())
  | s :: rest =>
    match env.stop s with
    | Except.ok _ =>
      let r := stopLoop env rest
      (Effect.stopService s :: r.1, r.2)
    | Except.error e =>
      ([Effect.stopService s],
       Except.error ("Failed to stop process " ++ s ++ ": " ++ e))

/-- The `for path in paths_to_remove` loop: directories are removed
recursively, files individually, a path that is neither is skipped with a
log line only; the first removal failure aborts. -/
def removeLoop (env : Env) : List String → List Effect × Except String Unit
  | [] => ([], Except.ok ())
  | p :: rest =>
    match env.pathKind p with
    | PathKind.dir =>
      match env.removeDirAll p with
      | Except.ok _ =>
        let r := removeLoop env rest
        (Effect.removeDir p :: r.1, r.2)
      | Except.error e =>
        ([Effect.removeDir p], Except.error ("Error removing directory: " ++ e))
    | PathKind.file =>
      match env.removeFile p with
      | Except.ok _ =>
        let r := removeLoop env rest
        (Effect.removeFile p :: r.1, r.2)
      | Except.error e =>
        ([Effect.removeFile p], Except.error ("Error removing file: " ++ e))
    | PathKind.absent => removeLoop env rest

/-- The chown loop body: for each target path, spawn
`/bin/bash -c "chown -R user:group path"` through `Command::output()`.
The source matches `Ok(_) => {}` — the child's exit status is ignored; only
a failure to run the command at all (the `Err` branch of `output()`) aborts,
with the message built in the source. -/
def chownLoop (env : Env) (user group : String) :
    List String → List Effect × Except String Unit
  | [] => ([], Except.ok ())
  | p :: rest =>
    match env.runCommand ("chown -R " ++ user ++ ":" ++ group ++ " " ++ p) with
    | Except.ok _ =>
      let r := chownLoop env user group rest
      (Effect.chown user group p :: r.1, r.2)
    | Except.error e =>
      ([Effect.chown user group p], Except.error ("Error changing owner: " ++ e))

/-- The `for service_to_stop in &services_to_stop { systemctl::restart(...) }`
loop at stage `starting_service`. -/
def restartLoop (env : Env) : List String → List Effect × Except String Unit
  | [] => ([], Except.ok ())
  | s :: rest =>
    match env.restart s with
    | Except.ok _ =>
      let r := restartLoop env rest
      (Effect.restartService s :: r.1, r.2)
    | Except.error e =>
      ([Effect.restartService s], Except.error ("Error starting service: " ++ e))

instance {ε α : Type} [DecidableEq ε] [DecidableEq α] :
    DecidableEq (Except ε α) := fun a b =>
  match a, b with
  | Except.ok x, Except.ok y =>
    if h : x = y then Decidable.isTrue (h ▸ rfl)
    else Decidable.isFalse (fun hh => h (Except.ok.inj hh))
  | Except.error x, Except.error y =>
    if h : x = y then Decidable.isTrue (h ▸ rfl)
    else Decidable.isFalse (fun hh => h (Except.error.inj hh))
  | Except.ok _, Except.error _ =>
    Decidable.isFalse (fun hh => Except.noConfusion hh)
  | Except.error _, Except.ok _ =>
    Decidable.isFalse (fun hh => Except.noConfusion hh)

/-- The result of one background run of the pipeline body: the sequence of
values written to `stage` (in write order), the trace of external effects
performed (in order), and the body's `anyhow::Result`. -/
structure RunTrace where
  stages : List String
  actions : List Effect
  result : Except String Unit
  deriving Repr, DecidableEq

/-- The chown part of the pipeline body (the
`if let (Some(target_user), Some(target_group)) = ...` block): the loop
runs only when both a target user and group are present, otherwise it is
skipped as a success with no effect. -/
def chownPart (env : Env) (target_user target_group : Option String)
    (target_paths : List String) : List Effect × Except String Unit :=
  match target_user, target_group with
  | some u, some g => chownLoop env u g target_paths
  | _, _ => ([], Except.ok ())

/-- The pipeline body `update_task_main` from src/main.rs, as a pure
function of the environment.  It follows the source line by line:
set stage `stopping_services` and stop the services; set stage
`removing_old_files` and remove the paths; sleep one settle second; set
stage `downloading`, start the download, poll until finished, then read the
capability's `error_message` once; set stage `changing_ownership` and, when
both a target user and group are present, chown the target paths; set stage
`starting_service` and restart the services; set stage `finished`. -/
def update_task_main (env : Env) (services_to_stop : List String)
    (paths_to_remove : List String) (target_user target_group : Option String)
    (target_paths : List String) : RunTrace :=
  let stopR := stopLoop env services_to_stop
  match stopR.2 with
  | Except.error e => ⟨["stopping_services"], stopR.1, Except.error e⟩
  | Except.ok _ =>
    let rmR := removeLoop env paths_to_remove
    match rmR.2 with
    | Except.error e =>
      ⟨["stopping_services", "removing_old_files"], stopR.1 ++ rmR.1,
       Except.error e⟩
    | Except.ok _ =>
      let acts1 := stopR.1 ++ rmR.1 ++ [Effect.sleepSettle]
      match env.start_download with
      | Except.error e =>
        ⟨["stopping_services", "removing_old_files", "downloading"],
         acts1 ++ [Effect.startDownload],
         Except.error ("Error started downloading: " ++ e)⟩
      | Except.ok _ =>
        let acts2 := acts1 ++ [Effect.startDownload, Effect.pollUntilFinished,
                               Effect.inspectDownloadError]
        match env.download_error_message with
        | some msg =>
          ⟨["stopping_services", "removing_old_files", "downloading"], acts2,
           Except.error ("Download failed with error: " ++ msg)⟩
        | none =>
          let chownR := chownPart env target_user target_group target_paths
          match chownR.2 with
          | Except.error e =>
            ⟨["stopping_services", "removing_old_files", "downloading",
              "changing_ownership"], acts2 ++ chownR.1, Except.error e⟩
          | Except.ok _ =>
            let restartR := restartLoop env services_to_stop
            match restartR.2 with
            | Except.error e =>
              ⟨["stopping_services", "removing_old_files", "downloading",
                "changing_ownership", "starting_service"],
               acts2 ++ chownR.1 ++ restartR.1, Except.error e⟩
            | Except.ok _ =>
              ⟨["stopping_services", "removing_old_files", "downloading",
                "changing_ownership", "starting_service", "finished"],
               acts2 ++ chownR.1 ++ restartR.1, Except.ok ()⟩

/-- The `UpdateTask` struct: its configuration plus the mutable fields the
Rust keeps behind `Arc<Mutex<...>>` (`is_running`, `stage`,
`error_message`).  The downloader handle is abstracted into `Env`. -/
structure UpdateTask where
  services_to_stop : List String
  is_running : Bool
  stage : String
  error_message : Option String
  paths_to_remove : List String
  target_user : Option String
  target_group : Option String
  target_paths : List String
  deriving Repr, DecidableEq

/-- `UpdateTask::new`: fresh task, not running, stage `init`, no error. -/
def UpdateTask.new (services_to_stop : List String)
    (paths_to_remove : List String) (target_user target_group : Option String)
    (target_paths : List String) : UpdateTask :=
  { services_to_stop := services_to_stop
    is_running := false
    stage := "init"
    error_message := none
    paths_to_remove := paths_to_remove
    target_user := target_user
    target_group := target_group
    target_paths := target_paths }

/-- `UpdateTask::get_progress`: the snapshot json with fields `stage`,
`errorMessage` (null when no error), `downloadProgress` (whatever the
download capability currently reports, passed in as `dl`). -/
def UpdateTask.get_progress (t : UpdateTask) (dl : Json) : Json :=
  Json.obj [("stage", Json.str t.stage),
            ("errorMessage",
             match t.error_message with
             | none => Json.null
             | some e => Json.str e),
            ("downloadProgress", dl)]

/-- The immediate (caller-visible, non-blocking) effect of
`UpdateTask::run`: fail with "Task is already running" if `is_running` is
set, otherwise set `is_running := true`, spawn the background thread and
return `Ok`.  No other field is touched — in particular `error_message` is
left as it was. -/
def UpdateTask.run (t : UpdateTask) : Except String UpdateTask :=
  if t.is_running then Except.error "Task is already running"
  else Except.ok { t with is_running := true }

/-- The effect of the spawned closure in `UpdateTask::run` once the
background thread runs the pipeline body to completion: `stage` holds the
last value the body wrote, `error_message` is set to the body's error (and
only then), and `is_running` is reset to false. -/
def UpdateTask.finishBackground (env : Env) (t : UpdateTask) :
    UpdateTask × RunTrace :=
  let tr := update_task_main env t.services_to_stop t.paths_to_remove
      t.target_user t.target_group t.target_paths
  let withErr :=
    match tr.result with
    | Except.ok _ => t
    | Except.error e => { t with error_message := some e }
  ({ withErr with stage := tr.stages.getLast?.getD t.stage,
                  is_running := false }, tr)

/-- The process-wide registry state behind `UPDATER_STATE`. -/
structure AppState where
  started : Bool
  updater : Option UpdateTask
  deriving Repr, DecidableEq

/-- The environment variables `start_update` reads. -/
structure EnvVars where
  output_dir : Option String
  delete_dirs : Option String
  services_to_stop : Option String
  target_user : Option String
  target_group : Option String
  change_owner_paths : Option String
  archive_url : Option String
  deriving Repr, DecidableEq

/-- Rust `s.split(";")` (on a `String`, yields `[""]` for the empty
string, exactly as `String.splitOn` does). -/
def splitSemi (s : String) : List String :=
  s.splitOn ";"

/-- The `UpdateTask` that `start_update` constructs from the environment
variables: `DELETE_DIRS`, `SERVICES_TO_STOP` and `CHANGE_OWNER_PATHS` are
semicolon-split (empty list when unset), `TARGET_USER` and `TARGET_GROUP`
default to "erigon" and are always passed as `Some`. -/
def taskFromEnvVars (ev : EnvVars) : UpdateTask :=
  UpdateTask.new
    ((ev.services_to_stop.map splitSemi).getD [])
    ((ev.delete_dirs.map splitSemi).getD [])
    (some (ev.target_user.getD "erigon"))
    (some (ev.target_group.getD "erigon"))
    ((ev.change_owner_paths.map splitSemi).getD [])

/-- What one call of the `/start` handler produces: the registry state
after the call, the literal response string, and how many background
pipeline threads the call spawned. -/
structure StartResult where
  state : AppState
  response : String
  spawned : Nat
  deriving Repr, DecidableEq

/-- Whether the registry's current task reports running:
`updater.as_ref().map(|upd| upd.is_running()).unwrap_or(false)`. -/
def currentRunning (st : AppState) : Bool :=
  (st.updater.map UpdateTask.is_running).getD false

/-- The `/start` handler `start_update`: if the current task is running,
answer "Already running" and change nothing; otherwise build a fresh task
from the environment variables and call its `run()`.  On `Err` the handler
returns the error string without storing the task (this branch is dead:
`run` only fails on an already-running task and the fresh task is not
running); on `Ok` it stores the started task and answers
"Update started!". -/
def start_update (ev : EnvVars) (st : AppState) : StartResult :=
  if currentRunning st then
    ⟨st, "Already running", 0⟩
  else
    let updater := taskFromEnvVars ev
    match updater.run with
    | Except.error e => ⟨st, "Error starting update task: " ++ e, 0⟩
    | Except.ok updater1 =>
      ⟨{ st with updater := some updater1 }, "Update started!", 1⟩

/-- The `/progress` handler: the current task's snapshot when a task
exists, else the literal no-task json from the source — note its error
field is spelled `error_message` there, unlike the task snapshot's
`errorMessage`. -/
def progress_endpoint (dl : Json) (st : AppState) : Json :=
  match st.updater with
  | some u => u.get_progress dl
  | none =>
    Json.obj [("downloadProgress", Json.null), ("stage", Json.str "no_task"),
              ("error_message", Json.null)]

/-- The fixed total order of pipeline stages (the forward chain the spec
describes). -/
def fullStageChain : List String :=
  ["stopping_services", "removing_old_files", "downloading",
   "changing_ownership", "starting_service", "finished"]

/-- Position of a stage name in the fixed chain (used to state forward
monotonicity). -/
def stageIndex (s : String) : Nat :=
  fullStageChain.indexOf s

/-- The effect a successful removal step emits for one path (directory →
recursive removal, file → single removal, absent → nothing). -/
def removeEffect (env : Env) (p : String) : Option Effect :=
  match env.pathKind p with
  | PathKind.dir => some (Effect.removeDir p)
  | PathKind.file => some (Effect.removeFile p)
  | PathKind.absent => none

/-- A path's removal cannot fail: whatever kind it is, the corresponding
removal call (if any) succeeds. -/
def removeOk (env : Env) (p : String) : Prop :=
  (env.pathKind p = PathKind.dir → env.removeDirAll p = Except.ok ()) ∧
  (env.pathKind p = PathKind.file → env.removeFile p = Except.ok ())

instance (env : Env) (p : String) : Decidable (removeOk env p) := by
  unfold removeOk
  infer_instance

/-- An environment in which every external call succeeds, every path is
absent, and the download reports no error. -/
def envAllOk : Env :=
  { stop := fun _ => Except.ok ()
    restart := fun _ => Except.ok ()
    pathKind := fun _ => PathKind.absent
    removeDirAll := fun _ => Except.ok ()
    removeFile := fun _ => Except.ok ()
    start_download := Except.ok ()
    download_error_message := none
    runCommand := fun _ => Except.ok ⟨true, "", ""⟩ }

/-- Like `envAllOk`, except `systemctl::stop` fails for service `svc-b`. -/
def envStopFail : Env :=
  { envAllOk with
    stop := fun s =>
      if s = "svc-b" then Except.error "Unit svc-b.service not loaded"
      else Except.ok () }

/-- Like `envAllOk`, except `/old/dir` is a directory whose recursive
removal fails and `/old/file` is a file whose removal fails. -/
def envRemoveFail : Env :=
  { envAllOk with
    pathKind := fun p =>
      if p = "/old/dir" then PathKind.dir
      else if p = "/old/file" then PathKind.file
      else PathKind.absent
    removeDirAll := fun p =>
      if p = "/old/dir" then Except.error "Permission denied (os error 13)"
      else Except.ok ()
    removeFile := fun p =>
      if p = "/old/file" then Except.error "Permission denied (os error 13)"
      else Except.ok () }

/-- Like `envAllOk`, except the download capability reports an internal
error after finishing. -/
def envDlError : Env :=
  { envAllOk with download_error_message := some "checksum mismatch" }

/-- Like `envAllOk`, except every spawned `chown` command runs but exits
unsuccessfully (`output()` itself returns `Ok`, with a failing status). -/
def envChownExitFail : Env :=
  { envAllOk with
    runCommand := fun _ =>
      Except.ok ⟨false, "", "chown: invalid user: erigon:erigon"⟩ }

/-- Like `envAllOk`, except spawning any command fails outright (the `Err`
branch of `Command::output()`). -/
def envChownSpawnFail : Env :=
  { envAllOk with
    runCommand := fun _ =>
      Except.error "No such file or directory (os error 2)" }

/-- A not-running task carrying an error message from an earlier failed
run, used to probe whether `run()` clears it. -/
def sampleErrTask : UpdateTask :=
  { services_to_stop := []
    is_running := false
    stage := "stopping_services"
    error_message := some "previous failure"
    paths_to_remove := []
    target_user := none
    target_group := none
    target_paths := [] }

/-- A small concrete task configuration: two services, one path to remove,
ownership targets configured. -/
def sampleTask : UpdateTask :=
  { services_to_stop := ["svc-a", "svc-b"]
    is_running := false
    stage := "init"
    error_message := none
    paths_to_remove := ["/old/dir", "/old/file"]
    target_user := some "erigon"
    target_group := some "erigon"
    target_paths := ["/data"]
    }

/-- Environment variables with nothing set (all defaults apply). -/
def evDefaults : EnvVars :=
  { output_dir := none
    delete_dirs := none
    services_to_stop := none
    target_user := none
    target_group := none
    change_owner_paths := none
    archive_url := none }

/-- Registry state before any start. -/
def stIdle : AppState :=
  { started := false, updater := none }

/-- Registry state whose current task is running. -/
def stBusy : AppState :=
  { started := false, updater := some { sampleTask with is_running := true } }

/-- Registry state whose current task exists but is not running. -/
def stDone : AppState :=
  { started := false,
    updater := some { sampleTask with error_message := some "old error" } }

lemma stopLoop_all_ok (env : Env) (l : List String)
    (h : ∀ s ∈ l, env.stop s = Except.ok ()) :
    stopLoop env l = (l.map Effect.stopService, Except.ok ()) := by
  induction l with
  | nil => rfl
  | cons s rest ih =>
    have hs : env.stop s = Except.ok () := h s (by simp)
    have hr := ih (fun x hx => h x (by simp [hx]))
    simp [stopLoop, hs, hr]

lemma stopLoop_break (env : Env) (pre : List String) (s : String)
    (post : List String) (e : String)
    (hpre : ∀ x ∈ pre, env.stop x = Except.ok ())
    (hs : env.stop s = Except.error e) :
    stopLoop env (pre ++ s :: post) =
      (pre.map Effect.stopService ++ [Effect.stopService s],
       Except.error ("Failed to stop process " ++ s ++ ": " ++ e)) := by
  induction pre with
  | nil => simp [stopLoop, hs]
  | cons x rest ih =>
    have hx : env.stop x = Except.ok () := hpre x (by simp)
    have hr := ih (fun y hy => hpre y (by simp [hy]))
    simp [stopLoop, hx, hr]

lemma stopLoop_actions_mem (env : Env) (l : List String) (a : Effect)
    (ha : a ∈ (stopLoop env l).1) : ∃ s, a = Effect.stopService s := by
  induction l with
  | nil => simp [stopLoop] at ha
  | cons s rest ih =>
    cases hs : env.stop s with
    | ok u =>
      simp [stopLoop, hs] at ha
      rcases ha with h | h
      · exact ⟨s, h⟩
      · exact ih h
    | error e =>
      simp [stopLoop, hs] at ha
      exact ⟨s, ha⟩

lemma removeLoop_all_ok (env : Env) (l : List String)
    (h : ∀ p ∈ l, removeOk env p) :
    removeLoop env l = (l.filterMap (removeEffect env), Except.ok ()) := by
  induction l with
  | nil => rfl
  | cons p rest ih =>
    have hr := ih (fun x hx => h x (by simp [hx]))
    cases hk : env.pathKind p with
    | dir =>
      have hd : env.removeDirAll p = Except.ok () := (h p (by simp)).1 hk
      simp [removeLoop, removeEffect, hk, hd, hr]
    | file =>
      have hf : env.removeFile p = Except.ok () := (h p (by simp)).2 hk
      simp [removeLoop, removeEffect, hk, hf, hr]
    | absent =>
      simp [removeLoop, removeEffect, hk, hr]

lemma removeLoop_break_dir (env : Env) (pre : List String) (p : String)
    (post : List String) (e : String)
    (hpre : ∀ x ∈ pre, removeOk env x)
    (hk : env.pathKind p = PathKind.dir)
    (he : env.removeDirAll p = Except.error e) :
    removeLoop env (pre ++ p :: post) =
      (pre.filterMap (removeEffect env) ++ [Effect.removeDir p],
       Except.error ("Error removing directory: " ++ e)) := by
  induction pre with
  | nil => simp [removeLoop, hk, he]
  | cons x rest ih =>
    have hr := ih (fun y hy => hpre y (by simp [hy]))
    cases hk' : env.pathKind x with
    | dir =>
      have hd : env.removeDirAll x = Except.ok () := (hpre x (by simp)).1 hk'
      simp [removeLoop, removeEffect, hk', hd, hr]
    | file =>
      have hf : env.removeFile x = Except.ok () := (hpre x (by simp)).2 hk'
      simp [removeLoop, removeEffect, hk', hf, hr]
    | absent =>
      simp [removeLoop, removeEffect, hk', hr]

lemma removeLoop_break_file (env : Env) (pre : List String) (p : String)
    (post : List String) (e : String)
    (hpre : ∀ x ∈ pre, removeOk env x)
    (hk : env.pathKind p = PathKind.file)
    (he : env.removeFile p = Except.error e) :
    removeLoop env (pre ++ p :: post) =
      (pre.filterMap (removeEffect env) ++ [Effect.removeFile p],
       Except.error ("Error removing file: " ++ e)) := by
  induction pre with
  | nil => simp [removeLoop, hk, he]
  | cons x rest ih =>
    have hr := ih (fun y hy => hpre y (by simp [hy]))
    cases hk' : env.pathKind x with
    | dir =>
      have hd : env.removeDirAll x = Except.ok () := (hpre x (by simp)).1 hk'
      simp [removeLoop, removeEffect, hk', hd, hr]
    | file =>
      have hf : env.removeFile x = Except.ok () := (hpre x (by simp)).2 hk'
      simp [removeLoop, removeEffect, hk', hf, hr]
    | absent =>
      simp [removeLoop, removeEffect, hk', hr]

lemma removeLoop_actions_mem (env : Env) (l : List String) (a : Effect)
    (ha : a ∈ (removeLoop env l).1) :
    (∃ p, a = Effect.removeDir p) ∨ (∃ p, a = Effect.removeFile p) := by
  induction l with
  | nil => simp [removeLoop] at ha
  | cons p rest ih =>
    cases hk : env.pathKind p with
    | dir =>
      cases hd : env.removeDirAll p with
      | ok u =>
        simp [removeLoop, hk, hd] at ha
        rcases ha with h | h
        · exact Or.inl ⟨p, h⟩
        · exact ih h
      | error e =>
        simp [removeLoop, hk, hd] at ha
        exact Or.inl ⟨p, ha⟩
    | file =>
      cases hf : env.removeFile p with
      | ok u =>
        simp [removeLoop, hk, hf] at ha
        rcases ha with h | h
        · exact Or.inr ⟨p, h⟩
        · exact ih h
      | error e =>
        simp [removeLoop, hk, hf] at ha
        exact Or.inr ⟨p, ha⟩
    | absent =>
      simp [removeLoop, hk] at ha
      exact ih ha

lemma chownLoop_all_ok (env : Env) (u g : String) (l : List String)
    (h : ∀ p ∈ l, ∃ out,
      env.runCommand ("chown -R " ++ u ++ ":" ++ g ++ " " ++ p) =
        Except.ok out) :
    chownLoop env u g l = (l.map (Effect.chown u g), Except.ok ()) := by
  induction l with
  | nil => rfl
  | cons p rest ih =>
    obtain ⟨out, hout⟩ := h p (by simp)
    have hr := ih (fun x hx => h x (by simp [hx]))
    simp [chownLoop, hout, hr]

lemma chownLoop_break (env : Env) (u g : String) (pre : List String)
    (p : String) (post : List String) (e : String)
    (hpre : ∀ x ∈ pre, ∃ out,
      env.runCommand ("chown -R " ++ u ++ ":" ++ g ++ " " ++ x) =
        Except.ok out)
    (he : env.runCommand ("chown -R " ++ u ++ ":" ++ g ++ " " ++ p) =
      Except.error e) :
    chownLoop env u g (pre ++ p :: post) =
      (pre.map (Effect.chown u g) ++ [Effect.chown u g p],
       Except.error ("Error changing owner: " ++ e)) := by
  induction pre with
  | nil => simp [chownLoop, he]
  | cons x rest ih =>
    obtain ⟨out, hout⟩ := hpre x (by simp)
    have hr := ih (fun y hy => hpre y (by simp [hy]))
    simp [chownLoop, hout, hr]

lemma chownLoop_actions_mem (env : Env) (u g : String) (l : List String)
    (a : Effect) (ha : a ∈ (chownLoop env u g l).1) :
    ∃ p, a = Effect.chown u g p := by
  induction l with
  | nil => simp [chownLoop] at ha
  | cons p rest ih =>
    cases hc : env.runCommand ("chown -R " ++ u ++ ":" ++ g ++ " " ++ p) with
    | ok out =>
      simp [chownLoop, hc] at ha
      rcases ha with h | h
      · exact ⟨p, h⟩
      · exact ih h
    | error e =>
      simp [chownLoop, hc] at ha
      exact ⟨p, ha⟩

lemma restartLoop_all_ok (env : Env) (l : List String)
    (h : ∀ s ∈ l, env.restart s = Except.ok ()) :
    restartLoop env l = (l.map Effect.restartService, Except.ok ()) := by
  induction l with
  | nil => rfl
  | cons s rest ih =>
    have hs : env.restart s = Except.ok () := h s (by simp)
    have hr := ih (fun x hx => h x (by simp [hx]))
    simp [restartLoop, hs, hr]

lemma restartLoop_break (env : Env) (pre : List String) (s : String)
    (post : List String) (e : String)
    (hpre : ∀ x ∈ pre, env.restart x = Except.ok ())
    (hs : env.restart s = Except.error e) :
    restartLoop env (pre ++ s :: post) =
      (pre.map Effect.restartService ++ [Effect.restartService s],
       Except.error ("Error starting service: " ++ e)) := by
  induction pre with
  | nil => simp [restartLoop, hs]
  | cons x rest ih =>
    have hx : env.restart x = Except.ok () := hpre x (by simp)
    have hr := ih (fun y hy => hpre y (by simp [hy]))
    simp [restartLoop, hx, hr]

lemma restartLoop_actions_mem (env : Env) (l : List String) (a : Effect)
    (ha : a ∈ (restartLoop env l).1) : ∃ s, a = Effect.restartService s := by
  induction l with
  | nil => simp [restartLoop] at ha
  | cons s rest ih =>
    cases hs : env.restart s with
    | ok u =>
      simp [restartLoop, hs] at ha
      rcases ha with h | h
      · exact ⟨s, h⟩
      · exact ih h
    | error e =>
      simp [restartLoop, hs] at ha
      exact ⟨s, ha⟩

lemma utm_stop_error (env : Env) (svc rm : List String)
    (tu tg : Option String) (tp : List String) (acts : List Effect)
    (e : String) (h : stopLoop env svc = (acts, Except.error e)) :
    update_task_main env svc rm tu tg tp =
      ⟨["stopping_services"], acts, Except.error e⟩ := by
  simp [update_task_main, h]

lemma utm_remove_error (env : Env) (svc rm : List String)
    (tu tg : Option String) (tp : List String) (acts : List Effect)
    (e : String) (h1 : (stopLoop env svc).2 = Except.ok ())
    (h2 : removeLoop env rm = (acts, Except.error e)) :
    update_task_main env svc rm tu tg tp =
      ⟨["stopping_services", "removing_old_files"],
       (stopLoop env svc).1 ++ acts, Except.error e⟩ := by
  simp [update_task_main, h1, h2]

lemma utm_download_start_error (env : Env) (svc rm : List String)
    (tu tg : Option String) (tp : List String) (e : String)
    (h1 : (stopLoop env svc).2 = Except.ok ())
    (h2 : (removeLoop env rm).2 = Except.ok ())
    (h3 : env.start_download = Except.error e) :
    update_task_main env svc rm tu tg tp =
      ⟨["stopping_services", "removing_old_files", "downloading"],
       (stopLoop env svc).1 ++ (removeLoop env rm).1 ++ [Effect.sleepSettle] ++
         [Effect.startDownload],
       Except.error ("Error started downloading: " ++ e)⟩ := by
  simp [update_task_main, h1, h2, h3]

lemma utm_download_reported_error (env : Env) (svc rm : List String)
    (tu tg : Option String) (tp : List String) (msg : String)
    (h1 : (stopLoop env svc).2 = Except.ok ())
    (h2 : (removeLoop env rm).2 = Except.ok ())
    (h3 : env.start_download = Except.ok ())
    (h4 : env.download_error_message = some msg) :
    update_task_main env svc rm tu tg tp =
      ⟨["stopping_services", "removing_old_files", "downloading"],
       (stopLoop env svc).1 ++ (removeLoop env rm).1 ++ [Effect.sleepSettle] ++
         [Effect.startDownload, Effect.pollUntilFinished,
          Effect.inspectDownloadError],
       Except.error ("Download failed with error: " ++ msg)⟩ := by
  simp [update_task_main, h1, h2, h3, h4]

lemma utm_chown_error (env : Env) (svc rm : List String)
    (tu tg : Option String) (tp : List String) (cacts : List Effect)
    (e : String)
    (h1 : (stopLoop env svc).2 = Except.ok ())
    (h2 : (removeLoop env rm).2 = Except.ok ())
    (h3 : env.start_download = Except.ok ())
    (h4 : env.download_error_message = none)
    (h5 : chownPart env tu tg tp = (cacts, Except.error e)) :
    update_task_main env svc rm tu tg tp =
      ⟨["stopping_services", "removing_old_files", "downloading",
        "changing_ownership"],
       (stopLoop env svc).1 ++ (removeLoop env rm).1 ++ [Effect.sleepSettle] ++
         [Effect.startDownload, Effect.pollUntilFinished,
          Effect.inspectDownloadError] ++ cacts,
       Except.error e⟩ := by
  simp [update_task_main, h1, h2, h3, h4, h5]

lemma utm_restart_error (env : Env) (svc rm : List String)
    (tu tg : Option String) (tp : List String) (cacts racts : List Effect)
    (e : String)
    (h1 : (stopLoop env svc).2 = Except.ok ())
    (h2 : (removeLoop env rm).2 = Except.ok ())
    (h3 : env.start_download = Except.ok ())
    (h4 : env.download_error_message = none)
    (h5 : chownPart env tu tg tp = (cacts, Except.ok ()))
    (h6 : restartLoop env svc = (racts, Except.error e)) :
    update_task_main env svc rm tu tg tp =
      ⟨["stopping_services", "removing_old_files", "downloading",
        "changing_ownership", "starting_service"],
       (stopLoop env svc).1 ++ (removeLoop env rm).1 ++ [Effect.sleepSettle] ++
         [Effect.startDownload, Effect.pollUntilFinished,
          Effect.inspectDownloadError] ++ cacts ++ racts,
       Except.error e⟩ := by
  simp [update_task_main, h1, h2, h3, h4, h5, h6]

lemma utm_success (env : Env) (svc rm : List String)
    (tu tg : Option String) (tp : List String) (cacts racts : List Effect)
    (h1 : (stopLoop env svc).2 = Except.ok ())
    (h2 : (removeLoop env rm).2 = Except.ok ())
    (h3 : env.start_download = Except.ok ())
    (h4 : env.download_error_message = none)
    (h5 : chownPart env tu tg tp = (cacts, Except.ok ()))
    (h6 : restartLoop env svc = (racts, Except.ok ())) :
    update_task_main env svc rm tu tg tp =
      ⟨fullStageChain,
       (stopLoop env svc).1 ++ (removeLoop env rm).1 ++ [Effect.sleepSettle] ++
         [Effect.startDownload, Effect.pollUntilFinished,
          Effect.inspectDownloadError] ++ cacts ++ racts,
       Except.ok ()⟩ := by
  simp [update_task_main, h1, h2, h3, h4, h5, h6, fullStageChain]

/-- C1: when `request_start` (GET /start) finds no running current task,
it constructs a new Update Task from the configuration, calls its
`start()`, and stores it as the current task.  `run()` on the freshly
constructed task always returns `Ok` (it only fails on an already-running
task and a fresh task is not running), so the storing happens on every
accepted request — which also makes the claim's "even when start() returns
an error" case vacuous: no execution reaches that branch. -/
theorem C1_start_stores_new_task (ev : EnvVars) (st : AppState)
    (h : currentRunning st = false) :
    (taskFromEnvVars ev).run =
      Except.ok { taskFromEnvVars ev with is_running := true } ∧
    (start_update ev st).state.updater =
      some { taskFromEnvVars ev with is_running := true } ∧
    (start_update ev st).response = "Update started!" := by
  have hrun : (taskFromEnvVars ev).run =
      Except.ok { taskFromEnvVars ev with is_running := true } := by
    simp [UpdateTask.run, taskFromEnvVars, UpdateTask.new]
  refine ⟨hrun, ?_, ?_⟩ <;> simp [start_update, h, hrun]

/-- C1 witness: a concrete accepted request (no previous task) stores the
newly constructed, started task. -/
theorem C1_witness :
    (taskFromEnvVars evDefaults).run =
      Except.ok { taskFromEnvVars evDefaults with is_running := true } ∧
    (start_update evDefaults stIdle).state.updater =
      some { taskFromEnvVars evDefaults with is_running := true } ∧
    (start_update evDefaults stIdle).response = "Update started!" :=
  C1_start_stores_new_task evDefaults stIdle rfl

/-- C2 counterexample: `run()` does not clear a prior error message.  A
not-running task whose `error_message` is `some "previous failure"` starts
successfully, and immediately after the successful start the error field
still holds the old message instead of being empty. -/
theorem C2_counterexample :
    sampleErrTask.is_running = false ∧
    sampleErrTask.run = Except.ok { sampleErrTask with is_running := true } ∧
    ({ sampleErrTask with is_running := true } : UpdateTask).error_message =
      some "previous failure" :=
  ⟨rfl, rfl, rfl⟩

/-- C2 (amended): `run()` on a running task fails with the AlreadyRunning
message and changes nothing; on a not-running task it sets `is_running` to
true, spawns the pipeline body and returns success immediately — but it
does NOT clear a prior error message: every other field, `error_message`
included, keeps its previous value. -/
theorem C2_run_semantics (t : UpdateTask) :
    (t.is_running = true → t.run = Except.error "Task is already running") ∧
    (∀ t1, t.run = Except.ok t1 →
      t.is_running = false ∧ t1 = { t with is_running := true } ∧
      t1.error_message = t.error_message) := by
  constructor
  · intro h
    simp [UpdateTask.run, h]
  · intro t1 h1
    rw [UpdateTask.run] at h1
    by_cases h : t.is_running
    · simp [h] at h1
    · simp [h] at h1
      refine ⟨by simpa using h, h1.symm, by rw [← h1]⟩

/-- C2 witness: the amended semantics at concrete tasks — an
already-running task is rejected; a not-running task with a prior error
starts with the error kept. -/
theorem C2_witness :
    ({ sampleTask with is_running := true } : UpdateTask).run =
      Except.error "Task is already running" ∧
    (sampleErrTask.is_running = false ∧
      ({ sampleErrTask with is_running := true } : UpdateTask) =
        { sampleErrTask with is_running := true } ∧
      ({ sampleErrTask with is_running := true } : UpdateTask).error_message =
        sampleErrTask.error_message) :=
  ⟨(C2_run_semantics _).1 rfl, (C2_run_semantics sampleErrTask).2 _ rfl⟩

/-- C8: `/start` answers exactly "Already running" — with no state change
and no pipeline spawned — precisely when the current task exists and is
running; otherwise it answers exactly "Update started!", spawns exactly
one pipeline, and stores the started task.  At most one pipeline is
spawned per request. -/
theorem C8_start_responses (ev : EnvVars) (st : AppState) :
    (currentRunning st = true →
      start_update ev st = ⟨st, "Already running", 0⟩) ∧
    (currentRunning st = false →
      (start_update ev st).response = "Update started!" ∧
      (start_update ev st).spawned = 1 ∧
      (start_update ev st).state.updater =
        some { taskFromEnvVars ev with is_running := true }) ∧
    ((start_update ev st).response = "Already running" ↔
      currentRunning st = true) ∧
    (start_update ev st).spawned ≤ 1 := by
  have hrun : (taskFromEnvVars ev).run =
      Except.ok { taskFromEnvVars ev with is_running := true } := by
    simp [UpdateTask.run, taskFromEnvVars, UpdateTask.new]
  cases hr : currentRunning st with
  | true => simp [start_update, hr]
  | false => simp [start_update, hr, hrun]

/-- C8 witness: with a running current task the response is the literal
"Already running" and nothing changes; from an idle registry the response
is "Update started!" with one pipeline spawned. -/
theorem C8_witness :
    start_update evDefaults stBusy = ⟨stBusy, "Already running", 0⟩ ∧
    (start_update evDefaults stIdle).response = "Update started!" ∧
    (start_update evDefaults stIdle).spawned = 1 :=
  ⟨(C8_start_responses evDefaults stBusy).1 rfl,
   ((C8_start_responses evDefaults stIdle).2.1 rfl).1,
   ((C8_start_responses evDefaults stIdle).2.1 rfl).2.1⟩

/-- C10 counterexample: the two branches of `/progress` do not use the
same field names.  With a task present the snapshot's error field is
`errorMessage`; the no-task value spells it `error_message` instead — it
has no `errorMessage` field at all (and with a task there is no
`error_message` field). -/
theorem C10_counterexample :
    (progress_endpoint Json.null stIdle).getField "errorMessage" = none ∧
    (progress_endpoint Json.null stIdle).getField "error_message" =
      some Json.null ∧
    (progress_endpoint Json.null stBusy).getField "errorMessage" =
      some Json.null ∧
    (progress_endpoint Json.null stBusy).getField "error_message" = none := by
  refine ⟨?_, ?_, ?_, ?_⟩ <;>
    simp [progress_endpoint, stIdle, stBusy, UpdateTask.get_progress,
          Json.getField, List.lookup, sampleTask]

/-- C10 (amended): `/progress` always returns a snapshot with the three
fields.  With a task present the fields are `stage` (the task's stage),
`errorMessage` (null when no error) and `downloadProgress` (the download
capability's value); before any start the no-task value has stage
"no_task", null download progress and a null error — but its error field
is named `error_message`, not `errorMessage` as in the task case. -/
theorem C10_progress_shape (dl : Json) (st : AppState) :
    (∀ u, st.updater = some u →
      (progress_endpoint dl st).getField "stage" = some (Json.str u.stage) ∧
      (progress_endpoint dl st).getField "errorMessage" =
        some (match u.error_message with
              | none => Json.null
              | some e => Json.str e) ∧
      (progress_endpoint dl st).getField "downloadProgress" = some dl) ∧
    (st.updater = none →
      (progress_endpoint dl st).getField "stage" =
        some (Json.str "no_task") ∧
      (progress_endpoint dl st).getField "downloadProgress" =
        some Json.null ∧
      (progress_endpoint dl st).getField "error_message" = some Json.null ∧
      (progress_endpoint dl st).getField "errorMessage" = none) := by
  constructor
  · intro u hu
    refine ⟨?_, ?_, ?_⟩ <;>
      simp [progress_endpoint, hu, UpdateTask.get_progress, Json.getField,
            List.lookup]
  · intro hn
    refine ⟨?_, ?_, ?_, ?_⟩ <;>
      simp [progress_endpoint, hn, Json.getField, List.lookup]

/-- C10 witness: the amended shape at a concrete registry with a task and
at the empty registry. -/
theorem C10_witness :
    ((progress_endpoint Json.null stBusy).getField "stage" =
      some (Json.str "init") ∧
     (progress_endpoint Json.null stBusy).getField "errorMessage" =
      some Json.null ∧
     (progress_endpoint Json.null stBusy).getField "downloadProgress" =
      some Json.null) ∧
    ((progress_endpoint Json.null stIdle).getField "stage" =
      some (Json.str "no_task") ∧
     (progress_endpoint Json.null stIdle).getField "downloadProgress" =
      some Json.null ∧
     (progress_endpoint Json.null stIdle).getField "error_message" =
      some Json.null ∧
     (progress_endpoint Json.null stIdle).getField "errorMessage" = none) :=
  ⟨(C10_progress_shape Json.null stBusy).1 _ rfl,
   (C10_progress_shape Json.null stIdle).2 rfl⟩

lemma chownPart_actions_mem (env : Env) (tu tg : Option String)
    (tp : List String) (a : Effect) (ha : a ∈ (chownPart env tu tg tp).1) :
    ∃ u g p, tu = some u ∧ tg = some g ∧ a = Effect.chown u g p := by
  cases tu with
  | none => simp [chownPart] at ha
  | some u =>
    cases tg with
    | none => simp [chownPart] at ha
    | some g =>
      obtain ⟨p, hp⟩ := chownLoop_actions_mem env u g tp a ha
      exact ⟨u, g, p, rfl, rfl, hp⟩

lemma stopLoop_no_chown (env : Env) (l : List String) (u g p : String) :
    Effect.chown u g p ∉ (stopLoop env l).1 := by
  intro h
  obtain ⟨s, hs⟩ := stopLoop_actions_mem env l _ h
  simp at hs

lemma stopLoop_no_restart (env : Env) (l : List String) (s : String) :
    Effect.restartService s ∉ (stopLoop env l).1 := by
  intro h
  obtain ⟨x, hx⟩ := stopLoop_actions_mem env l _ h
  simp at hx

lemma stopLoop_no_inspect (env : Env) (l : List String) :
    Effect.inspectDownloadError ∉ (stopLoop env l).1 := by
  intro h
  obtain ⟨x, hx⟩ := stopLoop_actions_mem env l _ h
  simp at hx

lemma removeLoop_no_chown (env : Env) (l : List String) (u g p : String) :
    Effect.chown u g p ∉ (removeLoop env l).1 := by
  intro h
  rcases removeLoop_actions_mem env l _ h with ⟨x, hx⟩ | ⟨x, hx⟩ <;> simp at hx

lemma removeLoop_no_restart (env : Env) (l : List String) (s : String) :
    Effect.restartService s ∉ (removeLoop env l).1 := by
  intro h
  rcases removeLoop_actions_mem env l _ h with ⟨x, hx⟩ | ⟨x, hx⟩ <;> simp at hx

lemma removeLoop_no_inspect (env : Env) (l : List String) :
    Effect.inspectDownloadError ∉ (removeLoop env l).1 := by
  intro h
  rcases removeLoop_actions_mem env l _ h with ⟨x, hx⟩ | ⟨x, hx⟩ <;> simp at hx

lemma chownPart_no_restart (env : Env) (tu tg : Option String)
    (tp : List String) (s : String) :
    Effect.restartService s ∉ (chownPart env tu tg tp).1 := by
  intro h
  obtain ⟨u, g, p, _, _, hx⟩ := chownPart_actions_mem env tu tg tp _ h
  simp at hx

lemma chownPart_no_inspect (env : Env) (tu tg : Option String)
    (tp : List String) :
    Effect.inspectDownloadError ∉ (chownPart env tu tg tp).1 := by
  intro h
  obtain ⟨u, g, p, _, _, hx⟩ := chownPart_actions_mem env tu tg tp _ h
  simp at hx

lemma restartLoop_no_chown (env : Env) (l : List String) (u g p : String) :
    Effect.chown u g p ∉ (restartLoop env l).1 := by
  intro h
  obtain ⟨x, hx⟩ := restartLoop_actions_mem env l _ h
  simp at hx

lemma restartLoop_no_inspect (env : Env) (l : List String) :
    Effect.inspectDownloadError ∉ (restartLoop env l).1 := by
  intro h
  obtain ⟨x, hx⟩ := restartLoop_actions_mem env l _ h
  simp at hx

lemma utm_downloading_mem (env : Env) (svc rm : List String)
    (tu tg : Option String) (tp : List String)
    (h1 : (stopLoop env svc).2 = Except.ok ())
    (h2 : (removeLoop env rm).2 = Except.ok ()) :
    "downloading" ∈ (update_task_main env svc rm tu tg tp).stages := by
  cases h3 : env.start_download with
  | error e =>
    rw [utm_download_start_error env svc rm tu tg tp e h1 h2 h3]
    simp
  | ok u =>
    cases u
    cases h4 : env.download_error_message with
    | some msg =>
      rw [utm_download_reported_error env svc rm tu tg tp msg h1 h2 h3 h4]
      simp
    | none =>
      rcases h5 : chownPart env tu tg tp with ⟨cacts, cres⟩
      cases cres with
      | error e =>
        rw [utm_chown_error env svc rm tu tg tp cacts e h1 h2 h3 h4 h5]
        simp
      | ok u2 =>
        cases u2
        rcases h6 : restartLoop env svc with ⟨racts, rres⟩
        cases rres with
        | error e =>
          rw [utm_restart_error env svc rm tu tg tp cacts racts e h1 h2 h3 h4
            h5 h6]
          simp
        | ok u3 =>
          cases u3
          rw [utm_success env svc rm tu tg tp cacts racts h1 h2 h3 h4 h5 h6]
          simp [fullStageChain]

lemma utm_starting_service_mem (env : Env) (svc rm : List String)
    (tu tg : Option String) (tp : List String)
    (h1 : (stopLoop env svc).2 = Except.ok ())
    (h2 : (removeLoop env rm).2 = Except.ok ())
    (h3 : env.start_download = Except.ok ())
    (h4 : env.download_error_message = none)
    (h5 : (chownPart env tu tg tp).2 = Except.ok ()) :
    "starting_service" ∈ (update_task_main env svc rm tu tg tp).stages := by
  have h5' : chownPart env tu tg tp = ((chownPart env tu tg tp).1, Except.ok ()) := by
    rw [← h5]
  rcases h6 : restartLoop env svc with ⟨racts, rres⟩
  cases rres with
  | error e =>
    rw [utm_restart_error env svc rm tu tg tp _ racts e h1 h2 h3 h4 h5' h6]
    simp
  | ok u3 =>
    cases u3
    rw [utm_success env svc rm tu tg tp _ racts h1 h2 h3 h4 h5' h6]
    simp [fullStageChain]

lemma utm_inspect_once (env : Env) (svc rm : List String)
    (tu tg : Option String) (tp : List String)
    (h1 : (stopLoop env svc).2 = Except.ok ())
    (h2 : (removeLoop env rm).2 = Except.ok ())
    (h3 : env.start_download = Except.ok ()) :
    (update_task_main env svc rm tu tg tp).actions.count
      Effect.inspectDownloadError = 1 := by
  have c1 : (stopLoop env svc).1.count Effect.inspectDownloadError = 0 :=
    List.count_eq_zero.mpr (stopLoop_no_inspect env svc)
  have c2 : (removeLoop env rm).1.count Effect.inspectDownloadError = 0 :=
    List.count_eq_zero.mpr (removeLoop_no_inspect env rm)
  have c3 : (chownPart env tu tg tp).1.count Effect.inspectDownloadError = 0 :=
    List.count_eq_zero.mpr (chownPart_no_inspect env tu tg tp)
  have c4 : (restartLoop env svc).1.count Effect.inspectDownloadError = 0 :=
    List.count_eq_zero.mpr (restartLoop_no_inspect env svc)
  cases h4 : env.download_error_message with
  | some msg =>
    rw [utm_download_reported_error env svc rm tu tg tp msg h1 h2 h3 h4]
    simp [List.count_append, c1, c2]
  | none =>
    rcases h5 : chownPart env tu tg tp with ⟨cacts, cres⟩
    have c3' : cacts.count Effect.inspectDownloadError = 0 := by
      have := c3
      rw [h5] at this
      exact this
    cases cres with
    | error e =>
      rw [utm_chown_error env svc rm tu tg tp cacts e h1 h2 h3 h4 h5]
      simp [List.count_append, c1, c2, c3']
    | ok u2 =>
      cases u2
      rcases h6 : restartLoop env svc with ⟨racts, rres⟩
      have c4' : racts.count Effect.inspectDownloadError = 0 := by
        have := c4
        rw [h6] at this
        exact this
      cases rres with
      | error e =>
        rw [utm_restart_error env svc rm tu tg tp cacts racts e h1 h2 h3 h4 h5
          h6]
        simp [List.count_append, c1, c2, c3', c4']
      | ok u3 =>
        cases u3
        rw [utm_success env svc rm tu tg tp cacts racts h1 h2 h3 h4 h5 h6]
        simp [List.count_append, c1, c2, c3', c4']

lemma chainPairwise :
    List.Pairwise (fun a b => stageIndex a < stageIndex b) fullStageChain := by
  decide

lemma utm_stages_take (env : Env) (svc rm : List String)
    (tu tg : Option String) (tp : List String) :
    ∃ n, 1 ≤ n ∧ n ≤ 6 ∧
      (update_task_main env svc rm tu tg tp).stages = fullStageChain.take n ∧
      ((update_task_main env svc rm tu tg tp).result = Except.ok () ↔
        n = 6) := by
  rcases h1 : stopLoop env svc with ⟨sacts, sres⟩
  cases sres with
  | error e =>
    rw [utm_stop_error env svc rm tu tg tp sacts e h1]
    exact ⟨1, by omega, by omega, rfl, by simp⟩
  | ok u0 =>
    cases u0
    have h1' : (stopLoop env svc).2 = Except.ok () := by rw [h1]
    rcases h2 : removeLoop env rm with ⟨racts, rres⟩
    cases rres with
    | error e =>
      rw [utm_remove_error env svc rm tu tg tp racts e h1' h2]
      exact ⟨2, by omega, by omega, rfl, by simp⟩
    | ok u1 =>
      cases u1
      have h2' : (removeLoop env rm).2 = Except.ok () := by rw [h2]
      cases h3 : env.start_download with
      | error e =>
        rw [utm_download_start_error env svc rm tu tg tp e h1' h2' h3]
        exact ⟨3, by omega, by omega, rfl, by simp⟩
      | ok u2 =>
        cases u2
        cases h4 : env.download_error_message with
        | some msg =>
          rw [utm_download_reported_error env svc rm tu tg tp msg h1' h2' h3
            h4]
          exact ⟨3, by omega, by omega, rfl, by simp⟩
        | none =>
          rcases h5 : chownPart env tu tg tp with ⟨cacts, cres⟩
          cases cres with
          | error e =>
            rw [utm_chown_error env svc rm tu tg tp cacts e h1' h2' h3 h4 h5]
            exact ⟨4, by omega, by omega, rfl, by simp⟩
          | ok u3 =>
            cases u3
            rcases h6 : restartLoop env svc with ⟨racts2, rsres⟩
            cases rsres with
            | error e =>
              rw [utm_restart_error env svc rm tu tg tp cacts racts2 e h1' h2'
                h3 h4 h5 h6]
              exact ⟨5, by omega, by omega, rfl, by simp⟩
            | ok u4 =>
              cases u4
              rw [utm_success env svc rm tu tg tp cacts racts2 h1' h2' h3 h4
                h5 h6]
              exact ⟨6, by omega, by omega, rfl, by simp⟩

/-- C7: for every run of one Update Task started on a not-running task,
the sequence of stage writes is a prefix of the fixed forward chain
(`stopping_services → … → finished`), hence strictly forward-ordered and
never backward; the full chain is written exactly when the body succeeds,
so once an error is recorded stage progression stops (a strict prefix) and
the recorded error lands in `error_message`; `is_running` is true on the
task the moment `run()` accepts and false again once the background body
has finished. -/
theorem C7_stage_monotone (env : Env) (t t1 : UpdateTask)
    (h0 : t.is_running = false) (h1 : t.run = Except.ok t1) :
    t1.is_running = true ∧
    (t1.finishBackground env).1.is_running = false ∧
    (∃ n, 1 ≤ n ∧ n ≤ 6 ∧
      (t1.finishBackground env).2.stages = fullStageChain.take n ∧
      ((t1.finishBackground env).2.result = Except.ok () ↔ n = 6)) ∧
    List.Pairwise (fun a b => stageIndex a < stageIndex b)
      (t1.finishBackground env).2.stages ∧
    (∀ e, (t1.finishBackground env).2.result = Except.error e →
      (t1.finishBackground env).1.error_message = some e) := by
  rw [UpdateTask.run, h0] at h1
  simp at h1
  obtain ⟨n, hn1, hn6, hst, hres⟩ := utm_stages_take env t1.services_to_stop
    t1.paths_to_remove t1.target_user t1.target_group t1.target_paths
  refine ⟨by rw [← h1], ?_, ⟨n, hn1, hn6, ?_, ?_⟩, ?_, ?_⟩
  · simp [UpdateTask.finishBackground]
  · simpa [UpdateTask.finishBackground] using hst
  · simpa [UpdateTask.finishBackground] using hres
  · have hsub : (t1.finishBackground env).2.stages.Sublist fullStageChain := by
      have : (t1.finishBackground env).2.stages = fullStageChain.take n := by
        simpa [UpdateTask.finishBackground] using hst
      rw [this]
      exact List.take_sublist n fullStageChain
    exact List.Pairwise.sublist hsub chainPairwise
  · intro e he
    have he' : (update_task_main env t1.services_to_stop t1.paths_to_remove
        t1.target_user t1.target_group t1.target_paths).result =
        Except.error e := by
      simpa [UpdateTask.finishBackground] using he
    simp [UpdateTask.finishBackground, he']

/-- C7 witness: a concrete started task in the all-succeeding environment
satisfies the monotone-stage and running-bracket properties. -/
theorem C7_witness :
    ({ sampleTask with is_running := true } : UpdateTask).is_running = true ∧
    (({ sampleTask with is_running := true } : UpdateTask).finishBackground
      envAllOk).1.is_running = false ∧
    (∃ n, 1 ≤ n ∧ n ≤ 6 ∧
      (({ sampleTask with is_running := true } : UpdateTask).finishBackground
        envAllOk).2.stages = fullStageChain.take n ∧
      ((({ sampleTask with is_running := true } :
          UpdateTask).finishBackground envAllOk).2.result = Except.ok () ↔
        n = 6)) ∧
    List.Pairwise (fun a b => stageIndex a < stageIndex b)
      (({ sampleTask with is_running := true } : UpdateTask).finishBackground
        envAllOk).2.stages ∧
    (∀ e, (({ sampleTask with is_running := true } :
        UpdateTask).finishBackground envAllOk).2.result = Except.error e →
      (({ sampleTask with is_running := true } : UpdateTask).finishBackground
        envAllOk).1.error_message = some e) :=
  C7_stage_monotone envAllOk sampleTask
    { sampleTask with is_running := true } rfl rfl

/-- C4: if stopping a configured service fails, the pipeline aborts
immediately with that service's error: the only effects performed are the
stop attempts up to and including the failing one (later services are not
stopped; nothing is removed, downloaded, chowned or restarted), the only
stage ever written is `stopping_services`, and after the background run
the snapshot shows stage `stopping_services` with a non-empty error while
`running` is false. -/
theorem C4_stop_failure_aborts (env : Env) (t : UpdateTask)
    (pre : List String) (s : String) (post : List String) (e : String)
    (hsvc : t.services_to_stop = pre ++ s :: post)
    (hpre : ∀ x ∈ pre, env.stop x = Except.ok ())
    (hs : env.stop s = Except.error e) :
    (t.finishBackground env).2 =
      ⟨["stopping_services"],
       pre.map Effect.stopService ++ [Effect.stopService s],
       Except.error ("Failed to stop process " ++ s ++ ": " ++ e)⟩ ∧
    (t.finishBackground env).1.stage = "stopping_services" ∧
    (t.finishBackground env).1.error_message =
      some ("Failed to stop process " ++ s ++ ": " ++ e) ∧
    (t.finishBackground env).1.is_running = false := by
  have hstop : stopLoop env t.services_to_stop =
      (pre.map Effect.stopService ++ [Effect.stopService s],
       Except.error ("Failed to stop process " ++ s ++ ": " ++ e)) := by
    rw [hsvc]
    exact stopLoop_break env pre s post e hpre hs
  have hutm := utm_stop_error env t.services_to_stop t.paths_to_remove
    t.target_user t.target_group t.target_paths _ _ hstop
  refine ⟨?_, ?_, ?_, ?_⟩ <;> simp [UpdateTask.finishBackground, hutm]

/-- C4 witness: `svc-a` stops fine, `svc-b` fails to stop — the run ends
at stage `stopping_services` with the error recorded and running false,
and `svc-c`-style later work never happens (the trace holds exactly the
two stop attempts). -/
theorem C4_witness :
    (sampleTask.finishBackground envStopFail).2 =
      ⟨["stopping_services"],
       (["svc-a"].map Effect.stopService) ++ [Effect.stopService "svc-b"],
       Except.error ("Failed to stop process " ++ "svc-b" ++ ": " ++
         "Unit svc-b.service not loaded")⟩ ∧
    (sampleTask.finishBackground envStopFail).1.stage =
      "stopping_services" ∧
    (sampleTask.finishBackground envStopFail).1.error_message =
      some ("Failed to stop process " ++ "svc-b" ++ ": " ++
        "Unit svc-b.service not loaded") ∧
    (sampleTask.finishBackground envStopFail).1.is_running = false :=
  C4_stop_failure_aborts envStopFail sampleTask ["svc-a"] "svc-b" []
    "Unit svc-b.service not loaded" rfl (by decide) (by decide)

/-- C5: in the removing_old_files step, paths are handled in list order —
a directory is removed recursively, a file individually, and a missing
path is skipped as a success (no effect, no error), after which the
pipeline proceeds to the downloading stage; the first actual removal
failure (directory or file) aborts the pipeline immediately with that
error, with no further stage written. -/
theorem C5_removal_semantics (env : Env) (t : UpdateTask)
    (hstop : ∀ s ∈ t.services_to_stop, env.stop s = Except.ok ()) :
    ((∀ p ∈ t.paths_to_remove, removeOk env p) →
      removeLoop env t.paths_to_remove =
        (t.paths_to_remove.filterMap (removeEffect env), Except.ok ()) ∧
      "downloading" ∈ (t.finishBackground env).2.stages) ∧
    (∀ pre p post e, t.paths_to_remove = pre ++ p :: post →
      (∀ x ∈ pre, removeOk env x) →
      env.pathKind p = PathKind.dir →
      env.removeDirAll p = Except.error e →
      (t.finishBackground env).2.stages =
        ["stopping_services", "removing_old_files"] ∧
      (t.finishBackground env).2.result =
        Except.error ("Error removing directory: " ++ e) ∧
      (t.finishBackground env).1.error_message =
        some ("Error removing directory: " ++ e)) ∧
    (∀ pre p post e, t.paths_to_remove = pre ++ p :: post →
      (∀ x ∈ pre, removeOk env x) →
      env.pathKind p = PathKind.file →
      env.removeFile p = Except.error e →
      (t.finishBackground env).2.stages =
        ["stopping_services", "removing_old_files"] ∧
      (t.finishBackground env).2.result =
        Except.error ("Error removing file: " ++ e) ∧
      (t.finishBackground env).1.error_message =
        some ("Error removing file: " ++ e)) := by
  have h1' : (stopLoop env t.services_to_stop).2 = Except.ok () := by
    rw [stopLoop_all_ok env t.services_to_stop hstop]
  refine ⟨?_, ?_, ?_⟩
  · intro hrm
    have hrmE := removeLoop_all_ok env t.paths_to_remove hrm
    have h2' : (removeLoop env t.paths_to_remove).2 = Except.ok () := by
      rw [hrmE]
    refine ⟨hrmE, ?_⟩
    have := utm_downloading_mem env t.services_to_stop t.paths_to_remove
      t.target_user t.target_group t.target_paths h1' h2'
    simpa [UpdateTask.finishBackground] using this
  · intro pre p post e hpaths hpreOk hk he
    have hrmE : removeLoop env t.paths_to_remove =
        (pre.filterMap (removeEffect env) ++ [Effect.removeDir p],
         Except.error ("Error removing directory: " ++ e)) := by
      rw [hpaths]
      exact removeLoop_break_dir env pre p post e hpreOk hk he
    have hutm := utm_remove_error env t.services_to_stop t.paths_to_remove
      t.target_user t.target_group t.target_paths _ _ h1' hrmE
    refine ⟨?_, ?_, ?_⟩ <;> simp [UpdateTask.finishBackground, hutm]
  · intro pre p post e hpaths hpreOk hk he
    have hrmE : removeLoop env t.paths_to_remove =
        (pre.filterMap (removeEffect env) ++ [Effect.removeFile p],
         Except.error ("Error removing file: " ++ e)) := by
      rw [hpaths]
      exact removeLoop_break_file env pre p post e hpreOk hk he
    have hutm := utm_remove_error env t.services_to_stop t.paths_to_remove
      t.target_user t.target_group t.target_paths _ _ h1' hrmE
    refine ⟨?_, ?_, ?_⟩ <;> simp [UpdateTask.finishBackground, hutm]

/-- C5 witness: with every configured path absent the removal step is a
no-op success and the run reaches the downloading stage; with a failing
directory (resp. file) removal the run aborts with that error. -/
theorem C5_witness :
    (removeLoop envAllOk sampleTask.paths_to_remove =
      (sampleTask.paths_to_remove.filterMap (removeEffect envAllOk),
       Except.ok ()) ∧
     "downloading" ∈ (sampleTask.finishBackground envAllOk).2.stages) ∧
    ((sampleTask.finishBackground envRemoveFail).2.stages =
      ["stopping_services", "removing_old_files"] ∧
     (sampleTask.finishBackground envRemoveFail).2.result =
      Except.error ("Error removing directory: " ++
        "Permission denied (os error 13)") ∧
     (sampleTask.finishBackground envRemoveFail).1.error_message =
      some ("Error removing directory: " ++
        "Permission denied (os error 13)")) ∧
    (({ sampleTask with paths_to_remove := ["/old/file"] } :
        UpdateTask).finishBackground envRemoveFail).2.result =
      Except.error ("Error removing file: " ++
        "Permission denied (os error 13)") :=
  ⟨(C5_removal_semantics envAllOk sampleTask (by decide)).1 (by decide),
   (C5_removal_semantics envRemoveFail sampleTask (by decide)).2.1
     [] "/old/dir" ["/old/file"] "Permission denied (os error 13)"
     rfl (by decide) (by decide) (by decide),
   ((C5_removal_semantics envRemoveFail
       { sampleTask with paths_to_remove := ["/old/file"] }
       (by decide)).2.2
     [] "/old/file" [] "Permission denied (os error 13)"
     rfl (by decide) (by decide) (by decide)).2.1⟩

/-- C6: once the poll loop has seen the download finish, the capability's
error field is inspected exactly once; if it is set the pipeline aborts
with that message — the stage writes end at `downloading`, no ownership
change and no service restart is performed, and the message is recorded in
the snapshot's error. -/
theorem C6_download_error_aborts (env : Env) (t : UpdateTask)
    (h1 : ∀ s ∈ t.services_to_stop, env.stop s = Except.ok ())
    (h2 : ∀ p ∈ t.paths_to_remove, removeOk env p)
    (h3 : env.start_download = Except.ok ()) :
    (t.finishBackground env).2.actions.count Effect.inspectDownloadError =
      1 ∧
    (∀ msg, env.download_error_message = some msg →
      (t.finishBackground env).2.result =
        Except.error ("Download failed with error: " ++ msg) ∧
      (t.finishBackground env).2.stages =
        ["stopping_services", "removing_old_files", "downloading"] ∧
      (∀ u g p, Effect.chown u g p ∉ (t.finishBackground env).2.actions) ∧
      (∀ s, Effect.restartService s ∉
        (t.finishBackground env).2.actions) ∧
      (t.finishBackground env).1.error_message =
        some ("Download failed with error: " ++ msg)) := by
  have h1' : (stopLoop env t.services_to_stop).2 = Except.ok () := by
    rw [stopLoop_all_ok env t.services_to_stop h1]
  have h2' : (removeLoop env t.paths_to_remove).2 = Except.ok () := by
    rw [removeLoop_all_ok env t.paths_to_remove h2]
  constructor
  · have := utm_inspect_once env t.services_to_stop t.paths_to_remove
      t.target_user t.target_group t.target_paths h1' h2' h3
    simpa [UpdateTask.finishBackground] using this
  · intro msg h4
    have hutm := utm_download_reported_error env t.services_to_stop
      t.paths_to_remove t.target_user t.target_group t.target_paths msg h1'
      h2' h3 h4
    have hacts : (t.finishBackground env).2.actions =
        (stopLoop env t.services_to_stop).1 ++
          (removeLoop env t.paths_to_remove).1 ++ [Effect.sleepSettle] ++
          [Effect.startDownload, Effect.pollUntilFinished,
           Effect.inspectDownloadError] := by
      simp [UpdateTask.finishBackground, hutm]
    refine ⟨?_, ?_, ?_, ?_, ?_⟩
    · simp [UpdateTask.finishBackground, hutm]
    · simp [UpdateTask.finishBackground, hutm]
    · intro u g p hmem
      rw [hacts] at hmem
      simp [List.mem_append] at hmem
      rcases hmem with hA | hB
      · exact stopLoop_no_chown env t.services_to_stop u g p hA
      · exact removeLoop_no_chown env t.paths_to_remove u g p hB
    · intro s hmem
      rw [hacts] at hmem
      simp [List.mem_append] at hmem
      rcases hmem with hA | hB
      · exact stopLoop_no_restart env t.services_to_stop s hA
      · exact removeLoop_no_restart env t.paths_to_remove s hB
    · simp [UpdateTask.finishBackground, hutm]

/-- C6 witness: the download capability finishes and reports "checksum
mismatch" — the error field was inspected once, the pipeline records the
wrapped message and performs no chown and no restart. -/
theorem C6_witness :
    (sampleTask.finishBackground envDlError).2.actions.count
      Effect.inspectDownloadError = 1 ∧
    (sampleTask.finishBackground envDlError).2.result =
      Except.error ("Download failed with error: " ++ "checksum mismatch") ∧
    (sampleTask.finishBackground envDlError).2.stages =
      ["stopping_services", "removing_old_files", "downloading"] ∧
    (∀ u g p, Effect.chown u g p ∉
      (sampleTask.finishBackground envDlError).2.actions) ∧
    (∀ s, Effect.restartService s ∉
      (sampleTask.finishBackground envDlError).2.actions) ∧
    (sampleTask.finishBackground envDlError).1.error_message =
      some ("Download failed with error: " ++ "checksum mismatch") := by
  have h := C6_download_error_aborts envDlError sampleTask (by decide)
    (by decide) (by decide)
  have h2 := h.2 "checksum mismatch" rfl
  exact ⟨h.1, h2.1, h2.2.1, h2.2.2.1, h2.2.2.2.1, h2.2.2.2.2⟩

/-- C3 counterexample: a failed ownership change can let the pipeline
proceed to starting_service.  The source checks only the `Err` branch of
`Command::output()`; here every `chown` command spawns fine but exits
unsuccessfully (`statusSuccess = false`), yet the run performs the
restarts, writes `starting_service` and `finished`, and ends with `Ok` and
no error. -/
theorem C3_counterexample :
    envChownExitFail.runCommand
        ("chown -R " ++ "erigon" ++ ":" ++ "erigon" ++ " " ++ "/data") =
      Except.ok ⟨false, "", "chown: invalid user: erigon:erigon"⟩ ∧
    (⟨false, "", "chown: invalid user: erigon:erigon"⟩ :
      CmdOutput).statusSuccess = false ∧
    (update_task_main envChownExitFail ["svc-a", "svc-b"] []
      (some "erigon") (some "erigon") ["/data"]).result = Except.ok () ∧
    "starting_service" ∈
      (update_task_main envChownExitFail ["svc-a", "svc-b"] []
        (some "erigon") (some "erigon") ["/data"]).stages ∧
    Effect.restartService "svc-a" ∈
      (update_task_main envChownExitFail ["svc-a", "svc-b"] []
        (some "erigon") (some "erigon") ["/data"]).actions := by
  refine ⟨rfl, rfl, ?_, ?_, ?_⟩ <;> decide

/-- C3 (amended): the changing_ownership step aborts only when invoking
the chown command itself fails (the `Err` branch of `output()`, e.g. bash
cannot be spawned); in that case, for the first such target path, the
pipeline aborts immediately with the ownership-change error: stage writes
end at `changing_ownership`, no service restart happens, and the error is
recorded.  A chown process that runs but exits unsuccessfully is ignored
and the pipeline proceeds (see the counterexample). -/
theorem C3_chown_spawn_failure_aborts (env : Env) (t : UpdateTask)
    (u g : String) (pre : List String) (p : String) (post : List String)
    (e : String)
    (htu : t.target_user = some u) (htg : t.target_group = some g)
    (htp : t.target_paths = pre ++ p :: post)
    (h1 : ∀ s ∈ t.services_to_stop, env.stop s = Except.ok ())
    (h2 : ∀ q ∈ t.paths_to_remove, removeOk env q)
    (h3 : env.start_download = Except.ok ())
    (h4 : env.download_error_message = none)
    (h5 : ∀ x ∈ pre, ∃ out,
      env.runCommand ("chown -R " ++ u ++ ":" ++ g ++ " " ++ x) =
        Except.ok out)
    (h6 : env.runCommand ("chown -R " ++ u ++ ":" ++ g ++ " " ++ p) =
      Except.error e) :
    (t.finishBackground env).2.result =
      Except.error ("Error changing owner: " ++ e) ∧
    (t.finishBackground env).2.stages =
      ["stopping_services", "removing_old_files", "downloading",
       "changing_ownership"] ∧
    (∀ s, Effect.restartService s ∉ (t.finishBackground env).2.actions) ∧
    (t.finishBackground env).1.error_message =
      some ("Error changing owner: " ++ e) := by
  have h1' : (stopLoop env t.services_to_stop).2 = Except.ok () := by
    rw [stopLoop_all_ok env t.services_to_stop h1]
  have h2' : (removeLoop env t.paths_to_remove).2 = Except.ok () := by
    rw [removeLoop_all_ok env t.paths_to_remove h2]
  have hch : chownPart env t.target_user t.target_group t.target_paths =
      (pre.map (Effect.chown u g) ++ [Effect.chown u g p],
       Except.error ("Error changing owner: " ++ e)) := by
    rw [htu, htg, htp]
    show chownLoop env u g (pre ++ p :: post) = _
    exact chownLoop_break env u g pre p post e h5 h6
  have hutm := utm_chown_error env t.services_to_stop t.paths_to_remove
    t.target_user t.target_group t.target_paths _ _ h1' h2' h3 h4 hch
  have hacts : (t.finishBackground env).2.actions =
      (stopLoop env t.services_to_stop).1 ++
        (removeLoop env t.paths_to_remove).1 ++ [Effect.sleepSettle] ++
        [Effect.startDownload, Effect.pollUntilFinished,
         Effect.inspectDownloadError] ++
        (pre.map (Effect.chown u g) ++ [Effect.chown u g p]) := by
    simp [UpdateTask.finishBackground, hutm]
  refine ⟨?_, ?_, ?_, ?_⟩
  · simp [UpdateTask.finishBackground, hutm]
  · simp [UpdateTask.finishBackground, hutm]
  · intro s hmem
    rw [hacts] at hmem
    simp [List.mem_append] at hmem
    rcases hmem with hA | hB
    · exact stopLoop_no_restart env t.services_to_stop s hA
    · exact removeLoop_no_restart env t.paths_to_remove s hB
  · simp [UpdateTask.finishBackground, hutm]

/-- C3 witness: spawning bash fails outright for the single target path —
the run aborts at `changing_ownership` with the ownership-change error and
no restart is performed. -/
theorem C3_witness :
    (sampleTask.finishBackground envChownSpawnFail).2.result =
      Except.error ("Error changing owner: " ++
        "No such file or directory (os error 2)") ∧
    (sampleTask.finishBackground envChownSpawnFail).2.stages =
      ["stopping_services", "removing_old_files", "downloading",
       "changing_ownership"] ∧
    (∀ s, Effect.restartService s ∉
      (sampleTask.finishBackground envChownSpawnFail).2.actions) ∧
    (sampleTask.finishBackground envChownSpawnFail).1.error_message =
      some ("Error changing owner: " ++
        "No such file or directory (os error 2)") :=
  C3_chown_spawn_failure_aborts envChownSpawnFail sampleTask "erigon"
    "erigon" [] "/data" [] "No such file or directory (os error 2)"
    rfl rfl rfl (by decide) (by decide) (by decide) (by decide)
    (by intro x hx; simp at hx) (by decide)

/-- C9: the changing_ownership step performs ownership changes only when
both a target user and a target group are configured: every chown effect
in a run carries exactly the configured pair, and if either is absent no
chown effect occurs at all while the pipeline still continues to the
starting_service stage (the skip is not an error).  This also settles the
claim's under-specified one-sided case: one `Some` is not enough, the step
is skipped. -/
theorem C9_chown_needs_both (env : Env) (t : UpdateTask)
    (h1 : ∀ s ∈ t.services_to_stop, env.stop s = Except.ok ())
    (h2 : ∀ p ∈ t.paths_to_remove, removeOk env p)
    (h3 : env.start_download = Except.ok ())
    (h4 : env.download_error_message = none) :
    ((t.target_user = none ∨ t.target_group = none) →
      (∀ u g p, Effect.chown u g p ∉ (t.finishBackground env).2.actions) ∧
      "starting_service" ∈ (t.finishBackground env).2.stages) ∧
    (∀ u g p, Effect.chown u g p ∈ (t.finishBackground env).2.actions →
      t.target_user = some u ∧ t.target_group = some g) := by
  have h1' : (stopLoop env t.services_to_stop).2 = Except.ok () := by
    rw [stopLoop_all_ok env t.services_to_stop h1]
  have h2' : (removeLoop env t.paths_to_remove).2 = Except.ok () := by
    rw [removeLoop_all_ok env t.paths_to_remove h2]
  constructor
  · intro hng
    have hcp : chownPart env t.target_user t.target_group t.target_paths =
        ([], Except.ok ()) := by
      rcases hng with h | h
      · rw [h]
        rfl
      · rw [h]
        cases t.target_user <;> rfl
    have hcp2 : (chownPart env t.target_user t.target_group
        t.target_paths).2 = Except.ok () := by rw [hcp]
    constructor
    · intro u g p hmem
      rcases h6 : restartLoop env t.services_to_stop with ⟨racts, rres⟩
      cases rres with
      | error e =>
        have hutm := utm_restart_error env t.services_to_stop
          t.paths_to_remove t.target_user t.target_group t.target_paths
          [] racts e h1' h2' h3 h4 hcp h6
        rw [show (t.finishBackground env).2.actions =
            (stopLoop env t.services_to_stop).1 ++
              (removeLoop env t.paths_to_remove).1 ++ [Effect.sleepSettle] ++
              [Effect.startDownload, Effect.pollUntilFinished,
               Effect.inspectDownloadError] ++ [] ++ racts from by
          simp [UpdateTask.finishBackground, hutm]] at hmem
        simp [List.mem_append] at hmem
        rcases hmem with hA | hB | hC
        · exact stopLoop_no_chown env t.services_to_stop u g p hA
        · exact removeLoop_no_chown env t.paths_to_remove u g p hB
        · have : Effect.chown u g p ∈ (restartLoop env
              t.services_to_stop).1 := by rw [h6]; exact hC
          exact restartLoop_no_chown env t.services_to_stop u g p this
      | ok u4 =>
        cases u4
        have hutm := utm_success env t.services_to_stop
          t.paths_to_remove t.target_user t.target_group t.target_paths
          [] racts h1' h2' h3 h4 hcp h6
        rw [show (t.finishBackground env).2.actions =
            (stopLoop env t.services_to_stop).1 ++
              (removeLoop env t.paths_to_remove).1 ++ [Effect.sleepSettle] ++
              [Effect.startDownload, Effect.pollUntilFinished,
               Effect.inspectDownloadError] ++ [] ++ racts from by
          simp [UpdateTask.finishBackground, hutm]] at hmem
        simp [List.mem_append] at hmem
        rcases hmem with hA | hB | hC
        · exact stopLoop_no_chown env t.services_to_stop u g p hA
        · exact removeLoop_no_chown env t.paths_to_remove u g p hB
        · have : Effect.chown u g p ∈ (restartLoop env
              t.services_to_stop).1 := by rw [h6]; exact hC
          exact restartLoop_no_chown env t.services_to_stop u g p this
    · have := utm_starting_service_mem env t.services_to_stop
        t.paths_to_remove t.target_user t.target_group t.target_paths h1'
        h2' h3 h4 hcp2
      simpa [UpdateTask.finishBackground] using this
  · intro u g p hmem
    rcases hcp : chownPart env t.target_user t.target_group t.target_paths
      with ⟨cacts, cres⟩
    have hfromPart : Effect.chown u g p ∈ cacts →
        t.target_user = some u ∧ t.target_group = some g := by
      intro hc
      have hc' : Effect.chown u g p ∈ (chownPart env t.target_user
          t.target_group t.target_paths).1 := by rw [hcp]; exact hc
      obtain ⟨u', g', p', htu', htg', heq⟩ := chownPart_actions_mem env
        t.target_user t.target_group t.target_paths _ hc'
      simp at heq
      obtain ⟨hu, hg, hp⟩ := heq
      subst hu
      subst hg
      exact ⟨htu', htg'⟩
    cases cres with
    | error e =>
      have hutm := utm_chown_error env t.services_to_stop
        t.paths_to_remove t.target_user t.target_group t.target_paths
        cacts e h1' h2' h3 h4 hcp
      rw [show (t.finishBackground env).2.actions =
          (stopLoop env t.services_to_stop).1 ++
            (removeLoop env t.paths_to_remove).1 ++ [Effect.sleepSettle] ++
            [Effect.startDownload, Effect.pollUntilFinished,
             Effect.inspectDownloadError] ++ cacts from by
        simp [UpdateTask.finishBackground, hutm]] at hmem
      simp [List.mem_append] at hmem
      rcases hmem with hA | hB | hC
      · exact absurd hA (stopLoop_no_chown env t.services_to_stop u g p)
      · exact absurd hB (removeLoop_no_chown env t.paths_to_remove u g p)
      · exact hfromPart hC
    | ok u3 =>
      cases u3
      rcases h6 : restartLoop env t.services_to_stop with ⟨racts, rres⟩
      cases rres with
      | error e =>
        have hutm := utm_restart_error env t.services_to_stop
          t.paths_to_remove t.target_user t.target_group t.target_paths
          cacts racts e h1' h2' h3 h4 hcp h6
        rw [show (t.finishBackground env).2.actions =
            (stopLoop env t.services_to_stop).1 ++
              (removeLoop env t.paths_to_remove).1 ++ [Effect.sleepSettle] ++
              [Effect.startDownload, Effect.pollUntilFinished,
               Effect.inspectDownloadError] ++ cacts ++ racts from by
          simp [UpdateTask.finishBackground, hutm]] at hmem
        simp [List.mem_append] at hmem
        rcases hmem with hA | hB | hC | hD
        · exact absurd hA (stopLoop_no_chown env t.services_to_stop u g p)
        · exact absurd hB (removeLoop_no_chown env t.paths_to_remove u g p)
        · exact hfromPart hC
        · have : Effect.chown u g p ∈ (restartLoop env
              t.services_to_stop).1 := by rw [h6]; exact hD
          exact absurd this
            (restartLoop_no_chown env t.services_to_stop u g p)
      | ok u4 =>
        cases u4
        have hutm := utm_success env t.services_to_stop
          t.paths_to_remove t.target_user t.target_group t.target_paths
          cacts racts h1' h2' h3 h4 hcp h6
        rw [show (t.finishBackground env).2.actions =
            (stopLoop env t.services_to_stop).1 ++
              (removeLoop env t.paths_to_remove).1 ++ [Effect.sleepSettle] ++
              [Effect.startDownload, Effect.pollUntilFinished,
               Effect.inspectDownloadError] ++ cacts ++ racts from by
          simp [UpdateTask.finishBackground, hutm]] at hmem
        simp [List.mem_append] at hmem
        rcases hmem with hA | hB | hC | hD
        · exact absurd hA (stopLoop_no_chown env t.services_to_stop u g p)
        · exact absurd hB (removeLoop_no_chown env t.paths_to_remove u g p)
        · exact hfromPart hC
        · have : Effect.chown u g p ∈ (restartLoop env
              t.services_to_stop).1 := by rw [h6]; exact hD
          exact absurd this
            (restartLoop_no_chown env t.services_to_stop u g p)

/-- C9 witness: with only a group configured no chown effect occurs and
the run still reaches starting_service; with both configured the chown
effect that does occur carries exactly the configured user and group. -/
theorem C9_witness :
    ((∀ u g p, Effect.chown u g p ∉
      (({ sampleTask with target_user := none } :
          UpdateTask).finishBackground envAllOk).2.actions) ∧
     "starting_service" ∈
      (({ sampleTask with target_user := none } :
          UpdateTask).finishBackground envAllOk).2.stages) ∧
    (sampleTask.target_user = some "erigon" ∧
     sampleTask.target_group = some "erigon") :=
  ⟨(C9_chown_needs_both envAllOk { sampleTask with target_user := none }
      (by decide) (by decide) (by decide) (by decide)).1 (Or.inl rfl),
   (C9_chown_needs_both envAllOk sampleTask
      (by decide) (by decide) (by decide) (by decide)).2 "erigon" "erigon"
     "/data" (by decide)⟩
